import Mathlib

/-!
Shallow embedding of the telegram-bot-kakao-vision repository (src/main.go,
the first of the two concatenated revisions, whose line numbers the claims
cite) together with proofs about the embedded definitions.

Modelling conventions:
- Go strings are modelled by Lean `String`; splitting and substring search
  are defined over the underlying `List Char`.
- Go float64 arithmetic in the drawing code is modelled over `Rat`; the
  claims touching the geometry are structural (which width/height a
  coordinate is multiplied by), not about rounding.
- Fallible Go operations (slicing that can panic, remote calls, sends)
  are modelled with `Option`/`Except`, and the outcomes of the external
  collaborators (Telegram transport, Kakao vision API) are inputs of the
  dispatcher functions.
-/

set_option maxRecDepth 8192

namespace KakaoVision

/-- Model of the behaviour of Go strings.Split with a one-character
separator: splits at every occurrence of the separator, never returns an
empty list (strings.Split of the empty string is a one-element list holding
the empty string). -/
def goSplit (sep : Char) : List Char → List (List Char)
  | [] => [[]]
  | c :: rest =>
    match goSplit sep rest with
    | [] => [[]]
    | s :: ss => if c = sep then [] :: s :: ss else (c :: s) :: ss

/-- Model of Go strings.Split(s, sep) for a one-character separator,
packaged on String (src/main.go line 357 splits callback data on "/"). -/
def strSplit (s : String) (sep : Char) : List String :=
  (goSplit sep s.data).map String.mk

/-- Model of Go strings.HasPrefix restricted to what strContains needs:
does the second list lead the first one. -/
def leadsWith : List Char → List Char → Bool
  | _, [] => true
  | [], _ :: _ => false
  | a :: as, b :: bs => a = b && leadsWith as bs

/-- Model of Go strings.Contains over character lists. -/
def charsContain (s sub : List Char) : Bool :=
  match s with
  | [] => sub.isEmpty
  | _ :: as => leadsWith s sub || charsContain as sub

/-- Model of Go strings.Contains(s, sub) (used at src/main.go line 367 to
check that the tapped message is the image-action menu). -/
def strContains (s sub : String) : Bool :=
  charsContain s.data sub.data

/-- The VisionCommand type of src/main.go line 54: a Go string type; each
command value is its human-readable label. -/
abbrev VisionCommand := String

/-- Command constant from src/main.go lines 57-69. -/
def DetectFaces : VisionCommand := "Detect Faces"

/-- Command constant from src/main.go lines 57-69. -/
def DetectProducts : VisionCommand := "Detect Products"

/-- Command constant from src/main.go lines 57-69; the trailing blank is in
the source. -/
def DetectNSFW : VisionCommand := "Detect NSFW "

/-- Command constant from src/main.go lines 57-69. -/
def Tag : VisionCommand := "Tag This Image"

/-- Command constant from src/main.go lines 57-69. -/
def AnalyzePoses : VisionCommand := "Analyze Poses"

/-- Command constant from src/main.go lines 57-69. -/
def ExtractTexts : VisionCommand := "Extract Texts"

/-- Command constant from src/main.go lines 57-69. -/
def MaskFaces : VisionCommand := "Mask Faces"

/-- Command constant from src/main.go line 68: the zero value returned by
visionCommandForCommand on an unknown token. -/
def None : VisionCommand := ""

/-- The closed command registry of src/main.go lines 72-82: each command
paired with its wire token. -/
def allCmds : List (VisionCommand × String) :=
  [(DetectFaces, "detect_faces"),
   (DetectProducts, "detect_products"),
   (DetectNSFW, "detect_nsfw"),
   (Tag, "tag"),
   (AnalyzePoses, "analyze_poses"),
   (ExtractTexts, "extract_texts"),
   (MaskFaces, "mask_faces")]

/-- Token decoding from src/main.go lines 84-96: scan the registry for the
entry whose token equals the argument; fall back to None. The Go loop over
the map has nondeterministic order, but the tokens in the registry are
pairwise distinct, so the first hit is the only hit. -/
def visionCommandForCommand (cmd : String) : VisionCommand :=
  match allCmds.find? (fun p => p.2 == cmd) with
  | some p => p.1
  | none => None

/-- The single-quote character as a one-character string, used to spell the
format strings of the source that wrap a command name in single quotes. -/
def sq : String := String.singleton (Char.ofNat 39)

/-- The cancel sentinel payload, src/main.go line 124. -/
def commandCancel : String := "cancel"

/-- Message constant, src/main.go line 105. -/
def messageActionImage : String := "Choose action for this image:"

/-- Message constant, src/main.go line 106. -/
def messageUnprocessable : String := "Unprocessable message."

/-- Message constant, src/main.go line 107; note that it is the only
failed-to-get-file message in the source and is used both when the stored
key is missing and when the transport GetFile call fails. -/
def messageFailedToGetFile : String := "Failed to get file from the server."

/-- Message constant, src/main.go line 108. -/
def messageCanceled : String := "Canceled."

/-- The process-lifetime file-reference store fileIDs of src/main.go line
98, modelled as an association list where the most recent insertion is
found first (matching last-write-wins Go map updates). -/
abbrev FileStore := List (String × String)

/-- Key derivation of src/main.go line 1016: shortenedFileID := fileID[:32].
Go slicing panics when the handle holds fewer than 32 bytes; the panic is
modelled by none. Telegram file identifiers are ASCII, so character count
and byte count agree. -/
def shortenFileID (fileID : String) : Option String :=
  if 32 ≤ fileID.length then some (fileID.take 32) else none

/-- Store mutation of src/main.go lines 1016-1017:
fileIDs[shortenedFileID] = fileID, returning the derived key and the
updated store, or none for the slice panic on a short handle. -/
def storeFileID (store : FileStore) (fileID : String) :
    Option (String × FileStore) :=
  (shortenFileID fileID).map (fun k => (k, (k, fileID) :: store))

/-- Store lookup of src/main.go line 363: fileID, exists := fileIDs[k]. -/
def lookupFileID (store : FileStore) (k : String) : Option String :=
  (store.find? (fun p => p.1 == k)).map Prod.snd

/-- Keyboard generation of src/main.go lines 1015-1028: derive and record
the shortened key, then build one button per registry command whose
callback payload is token ++ "/" ++ key (fmt.Sprintf with format
percent-s slash percent-s at line 1021), plus the cancel button whose
payload is the cancel sentinel. Returns (updated store, command buttons as
label-payload pairs, cancel payload). -/
def genImageInlineKeyboards (store : FileStore) (fileID : String) :
    Option (FileStore × List (String × String) × String) :=
  match storeFileID store fileID with
  | Option.none => Option.none
  | some (shortenedFileID, store2) =>
    some (store2,
          allCmds.map (fun p => (p.1, p.2 ++ "/" ++ shortenedFileID)),
          commandCancel)

/-- The payload-parsing step of processCallbackQuery, src/main.go lines
357-361: split the payload on "/", and when at least two parts result,
take part 0 as the command token and part 1 as the shortened file key. -/
def parseCallbackData (data : String) : Option (String × String) :=
  let parsedCommand := strSplit data '/'
  if 2 ≤ parsedCommand.length then
    some (parsedCommand.getD 0 "", parsedCommand.getD 1 "")
  else
    Option.none

/-- Environment of one processCallbackQuery run (src/main.go lines
345-417): the inbound callback payload and originating message text, the
current file-reference store, and the outcomes of the external transport
calls the handler makes. -/
structure CBEnv where
  data : String
  messageText : String
  store : FileStore
  getFileOk : Bool
  answerOk : Bool
  editOk : Bool
deriving DecidableEq

/-- Observable outcome of one processCallbackQuery run: the reply text the
handler chose, the command handed to the spawned processImage goroutine
when one was spawned, the text the menu message was edited to (the edit is
attempted only when AnswerCallbackQuery succeeded), and the returned
boolean. -/
structure CBResult where
  message : String
  spawned : Option VisionCommand
  edited : Option String
  ok : Bool
deriving DecidableEq

/-- Dispatcher step for an inbound callback query, src/main.go lines
345-417. The cancel sentinel short-circuits to the canceled notice; any
other payload is split on "/"; fewer than two parts is unprocessable;
otherwise the shortened key is looked up in the store (miss answers with
messageFailedToGetFile and spawns nothing), the file is resolved over the
transport (failure likewise answers with messageFailedToGetFile), and only
when the tapped message mentions "image" is processImage spawned with the
decoded command. Afterwards the callback is answered and, on success, the
menu message is edited to the chosen reply text. -/
def processCallbackQuery (env : CBEnv) : CBResult :=
  let pair : String × Option VisionCommand :=
    if env.data = commandCancel then
      (messageCanceled, Option.none)
    else
      let parsedCommand := strSplit env.data '/'
      if 2 ≤ parsedCommand.length then
        let command := parsedCommand.getD 0 ""
        let shortenedFileID := parsedCommand.getD 1 ""
        match lookupFileID env.store shortenedFileID with
        | some _fileID =>
          if env.getFileOk then
            if strContains env.messageText "image" then
              let visionCommand := visionCommandForCommand command
              ("Processing " ++ sq ++ visionCommand ++ sq
                 ++ " on received image...",
               some visionCommand)
            else
              (messageUnprocessable, Option.none)
          else
            (messageFailedToGetFile, Option.none)
        | Option.none =>
          (messageFailedToGetFile, Option.none)
      else
        (messageUnprocessable, Option.none)
  { message := pair.1,
    spawned := pair.2,
    edited := if env.answerOk then some pair.1 else Option.none,
    ok := env.answerOk && env.editOk }

/-- RGBA color, modelling image/color RGBA values from src/main.go lines
139-147. -/
structure Color where
  r : Nat
  g : Nat
  b : Nat
  a : Nat
deriving DecidableEq

/-- The fixed six-color palette of src/main.go lines 139-146. -/
def colors : List Color :=
  [⟨255, 255, 0, 255⟩, ⟨0, 255, 255, 255⟩, ⟨255, 0, 255, 255⟩,
   ⟨0, 255, 0, 255⟩, ⟨0, 0, 255, 255⟩, ⟨255, 0, 0, 255⟩]

/-- Color rotation of src/main.go lines 1031-1034: colors[i mod len]. -/
def colorForIndex (i : Nat) : Color :=
  colors.getD (i % colors.length) ⟨0, 0, 0, 0⟩

/-- Drawing constant, src/main.go line 131. -/
def CircleRadius : ℚ := 1 / 2

/-- Drawing constant, src/main.go line 132. -/
def StrokeWidth : ℚ := 3 / 2

/-- Drawing constant, src/main.go line 134. -/
def PosePointRadius : ℚ := 2

/-- Go conversion of a float to int: truncation toward zero, modelled over
the rationals. -/
def goInt (q : ℚ) : Int :=
  if 0 ≤ q then ⌊q⌋ else ⌈q⌉

/-- A facial landmark point of the Kakao face response; the Go side reads
it through the accessors X() and Y(). -/
structure FacePoint where
  x : ℚ
  y : ℚ
deriving DecidableEq

/-- The landmark point groups of one detected face. -/
structure FacialPoints where
  nose : List FacePoint
  rightEye : List FacePoint
  leftEye : List FacePoint
  lip : List FacePoint
deriving DecidableEq

/-- One detected face record: a normalized rectangle plus landmark
groups. -/
structure Face where
  x : ℚ
  y : ℚ
  w : ℚ
  h : ℚ
  facialPoints : FacialPoints
deriving DecidableEq

/-- The Result payload of kakaoapi.ResponseDetectedFace: the pixel width
and height the response declares its normalized coordinates against, plus
the face records. -/
structure FaceResult where
  width : Int
  height : Int
  faces : List Face
deriving DecidableEq

/-- One detected product object: two normalized corner points and a class
label. -/
structure ProductObject where
  x1 : ℚ
  y1 : ℚ
  x2 : ℚ
  y2 : ℚ
  objClass : String
deriving DecidableEq

/-- The Result payload of kakaoapi.ResponseDetectedProduct. -/
structure ProductResult where
  width : Int
  height : Int
  objects : List ProductObject
deriving DecidableEq

/-- One analyzed pose of kakaoapi.ResponseAnalyzedPose, modelled by its
KeyPointFor accessor: keypoint index to (x, y, score). The source reads
the coordinates and discards the score. -/
def Pose := Nat → ℚ × ℚ × ℚ

/-- kakaoapi.ResponseAnalyzedPose is a sequence of poses. -/
def PoseResult := List Pose

/-- One recognized text block of kakaoapi.ResponseDetectedText. -/
structure TextBlock where
  recognizedWords : List String
deriving DecidableEq

/-- NSFW scores of kakaoapi.ResponseCheckedNSFW. -/
structure NSFWResult where
  normal : ℚ
  soft : ℚ
  adult : ℚ
deriving DecidableEq

/-- Tag generation result: parallel label lists. -/
structure TagResult where
  labels : List String
  labelsKorean : List String
deriving DecidableEq

/-- One drawing primitive emitted by a rendering routine, carrying the
pixel-space geometry the source computes. -/
inductive DrawOp where
  | strokeRect (x0 y0 x1 y1 : ℚ) (col : Color)
  | label (text : String) (px py : Int) (col : Color)
  | point (cx cy : ℚ) (radius : ℚ) (col : Color)
  | line (x0 y0 x1 y1 : ℚ) (col : Color)
  | pixelate (x0 y0 x1 y1 : Int) (blockSize : Int)
deriving DecidableEq

/-- Output of a rendering routine: the canvas it allocates (sized from the
locally decoded image, src/main.go line 444), the font size derived from
the canvas height (line 460), and the ordered drawing primitives. -/
structure RenderOut where
  canvasW : Nat
  canvasH : Nat
  fontSize : ℚ
  ops : List DrawOp
deriving DecidableEq

/-- The label anchor used at src/main.go lines 478-483 and 590-595: x is
int(w + 5), y is int(PointToFixed(v)) shifted right by six bits, where
PointToFixed at 72 dpi multiplies by 64 and truncates. -/
def labelAnchor (w v : ℚ) : Int × Int :=
  (goInt (w + 5), Int.fdiv (goInt (64 * v)) 64)

/-- Per-face drawing of src/main.go lines 451-543: on DetectFaces, stroke
the face rectangle scaled by the response width W and height H, draw the
indexed label, and mark every nose, right-eye, left-eye and lip landmark
point as a small circle, all in colorForIndex i; on MaskFaces, pixelate
the scaled face rectangle with block size int(W * f.w / 8); the switch has
no other case. -/
def faceOps (W H : ℚ) (i : Nat) (f : Face) (command : VisionCommand) :
    List DrawOp :=
  if command = DetectFaces then
    let col := colorForIndex i
    let anchor := labelAnchor (W * f.x) (H * (f.y + f.h) - 5)
    [DrawOp.strokeRect (W * f.x) (H * f.y)
       (W * (f.x + f.w)) (H * (f.y + f.h)) col,
     DrawOp.label ("Face #" ++ toString (i + 1)) anchor.1 anchor.2 col]
    ++ f.facialPoints.nose.map
         (fun p => DrawOp.point (W * p.x) (H * p.y) CircleRadius col)
    ++ f.facialPoints.rightEye.map
         (fun p => DrawOp.point (W * p.x) (H * p.y) CircleRadius col)
    ++ f.facialPoints.leftEye.map
         (fun p => DrawOp.point (W * p.x) (H * p.y) CircleRadius col)
    ++ f.facialPoints.lip.map
         (fun p => DrawOp.point (W * p.x) (H * p.y) CircleRadius col)
  else if command = MaskFaces then
    [DrawOp.pixelate (goInt (W * f.x)) (goInt (H * f.y))
       (goInt (W * (f.x + f.w))) (goInt (H * (f.y + f.h)))
       (goInt (W * f.w / 8))]
  else
    []

/-- Face rendering routine of src/main.go lines 437-547: the canvas is a
copy of the locally decoded image (dimensions imgDx, imgDy), while every
geometric coordinate is scaled by the width and height declared in the
detection response. -/
def processImageForFaces (imgDx imgDy : Nat) (detected : FaceResult)
    (command : VisionCommand) : RenderOut :=
  let W : ℚ := (detected.width : ℚ)
  let H : ℚ := (detected.height : ℚ)
  { canvasW := imgDx,
    canvasH := imgDy,
    fontSize := (imgDy : ℚ) / 24,
    ops := detected.faces.enum.flatMap (fun p => faceOps W H p.1 p.2 command) }

/-- Per-object drawing of src/main.go lines 563-599: stroke the rectangle
spanned by the two scaled corner points and draw the indexed class
label. -/
def productOps (W H : ℚ) (i : Nat) (o : ProductObject) : List DrawOp :=
  let col := colorForIndex i
  let anchor := labelAnchor (W * o.x1) (H * o.y2 - 5)
  [DrawOp.strokeRect (W * o.x1) (H * o.y1) (W * o.x2) (H * o.y2) col,
   DrawOp.label ("#" ++ toString (i + 1) ++ ": " ++ o.objClass)
     anchor.1 anchor.2 col]

/-- Product rendering routine of src/main.go lines 549-603: draws every
object scaled by the response-declared width and height and also returns
the flat ordered class list used in the reply caption. -/
def processImageForProducts (imgDx imgDy : Nat) (detected : ProductResult) :
    RenderOut × List String :=
  let W : ℚ := (detected.width : ℚ)
  let H : ℚ := (detected.height : ℚ)
  ({ canvasW := imgDx,
     canvasH := imgDy,
     fontSize := (imgDy : ℚ) / 24,
     ops := detected.objects.enum.flatMap (fun p => productOps W H p.1 p.2) },
   detected.objects.map (fun o => o.objClass))

/-- Keypoint index constants of the kakao-api-go library in the order the
source names them; the library is an external collaborator whose exact
numeric values are immaterial here, the standard COCO ordering is used. -/
def kpNose : Nat := 0

/-- Keypoint index constant; see kpNose. -/
def kpLeftEye : Nat := 1

/-- Keypoint index constant; see kpNose. -/
def kpRightEye : Nat := 2

/-- Keypoint index constant; see kpNose. -/
def kpLeftEar : Nat := 3

/-- Keypoint index constant; see kpNose. -/
def kpRightEar : Nat := 4

/-- Keypoint index constant; see kpNose. -/
def kpLeftShoulder : Nat := 5

/-- Keypoint index constant; see kpNose. -/
def kpRightShoulder : Nat := 6

/-- Keypoint index constant; see kpNose. -/
def kpLeftElbow : Nat := 7

/-- Keypoint index constant; see kpNose. -/
def kpRightElbow : Nat := 8

/-- Keypoint index constant; see kpNose. -/
def kpLeftWrist : Nat := 9

/-- Keypoint index constant; see kpNose. -/
def kpRightWrist : Nat := 10

/-- Keypoint index constant; see kpNose. -/
def kpLeftHip : Nat := 11

/-- Keypoint index constant; see kpNose. -/
def kpRightHip : Nat := 12

/-- Keypoint index constant; see kpNose. -/
def kpLeftKnee : Nat := 13

/-- Keypoint index constant; see kpNose. -/
def kpRightKnee : Nat := 14

/-- Keypoint index constant; see kpNose. -/
def kpLeftAnkle : Nat := 15

/-- Keypoint index constant; see kpNose. -/
def kpRightAnkle : Nat := 16

/-- Per-pose drawing of src/main.go lines 614-811: a filled circle at every
named keypoint and connecting strokes along the fixed anatomical adjacency
list, in source order, all in colorForIndex i. The source draws with the
raw keypoint coordinates (no presence check and no scaling). -/
def poseOps (i : Nat) (pose : Pose) : List DrawOp :=
  let col := colorForIndex i
  let kp : Nat → ℚ × ℚ := fun idx => ((pose idx).1, (pose idx).2.1)
  let pt : Nat → DrawOp := fun idx =>
    DrawOp.point (kp idx).1 (kp idx).2 PosePointRadius col
  let ln : Nat → Nat → DrawOp := fun a b =>
    DrawOp.line (kp a).1 (kp a).2 (kp b).1 (kp b).2 col
  [pt kpNose, pt kpLeftEye, pt kpRightEye, pt kpLeftEar, pt kpRightEar,
   pt kpLeftShoulder, pt kpRightShoulder, ln kpLeftShoulder kpRightShoulder,
   pt kpLeftElbow, ln kpLeftShoulder kpLeftElbow,
   pt kpRightElbow, ln kpRightShoulder kpRightElbow,
   pt kpLeftWrist, ln kpLeftElbow kpLeftWrist,
   pt kpRightWrist, ln kpRightElbow kpRightWrist,
   pt kpLeftHip, pt kpRightHip, ln kpLeftHip kpRightHip,
   ln kpLeftShoulder kpRightHip, ln kpRightShoulder kpLeftHip,
   pt kpLeftKnee, ln kpLeftHip kpLeftKnee,
   pt kpRightKnee, ln kpRightHip kpRightKnee,
   pt kpLeftAnkle, ln kpLeftKnee kpLeftAnkle,
   pt kpRightAnkle, ln kpRightKnee kpRightAnkle]

/-- Pose rendering routine of src/main.go lines 605-816. -/
def processImageForPoses (imgDx imgDy : Nat) (analyzed : PoseResult) :
    RenderOut :=
  { canvasW := imgDx,
    canvasH := imgDy,
    fontSize := (imgDy : ℚ) / 24,
    ops := analyzed.enum.flatMap (fun p => poseOps p.1 p.2) }

/-- Two-decimal percentage formatting modelling the Go verb for fixed-point
output with two digits after the dot on a nonnegative value (rounding
ties upward; the float tie-breaking detail is immaterial to the claims). -/
def fmt2 (q : ℚ) : String :=
  let cents : Int := ⌊q * 100 + 1 / 2⌋
  let whole := cents / 100
  let frac := (cents % 100).toNat
  toString whole ++ "." ++ (if frac < 10 then "0" else "") ++ toString frac

/-- Environment of one processImage run (src/main.go lines 819-1012): the
file URL being fetched and the outcomes of every external call the
function can make. Each remote or transport failure carries the error
text the source interpolates into its message. -/
structure ImageEnv where
  fileURL : String
  readBytesRes : Except String Unit
  detectFaceRes : Except String FaceResult
  detectProductRes : Except String ProductResult
  detectNSFWRes : Except String NSFWResult
  generateTagsRes : Except String TagResult
  analyzePoseRes : Except String PoseResult
  detectTextRes : Except String (List TextBlock)
  decodeRes : Except String (Nat × Nat)
  encodeRes : Except String Unit
  sendPhotoRes : Except String Unit
  sendMessageRes : Except String Unit

/-- One outbound transport call made by processImage, in call order. -/
inductive Effect where
  | sendChatAction (action : String)
  | sendPhoto (caption : String)
  | sendMessage (text : String)
  | deleteMessage
deriving DecidableEq

/-- Whether an effect is a photo send. -/
def Effect.isPhoto : Effect → Bool
  | Effect.sendPhoto _ => true
  | _ => false

/-- Whether an effect is a text-message send. -/
def Effect.isMessage : Effect → Bool
  | Effect.sendMessage _ => true
  | _ => false

/-- The caption format of src/main.go lines 853, 962: Process result of
quoted command. -/
def captionPlain (command : VisionCommand) : String :=
  "Process result of " ++ sq ++ command ++ sq

/-- The caption format of src/main.go line 890 with the class list, and the
message headers of lines 907, 932, 984. -/
def captionWithBody (command : VisionCommand) (body : String) : String :=
  "Process result of " ++ sq ++ command ++ sq ++ ":\n\n" ++ body

/-- The switch body of processImage, src/main.go lines 830-1001: returns
the transport effects issued inside the switch together with the
errorMessage variable left behind. Mirrors the source case by case,
including the DetectProducts case having no else branch on a remote error
(lines 869-903) and the AnalyzePoses remote-error text reading Failed to
detect faces (line 973). -/
def processImageSwitch (env : ImageEnv) (command : VisionCommand) :
    List Effect × String :=
  if command = DetectFaces ∨ command = MaskFaces then
    match env.detectFaceRes with
    | Except.error e => ([], "Failed to detect faces: " ++ e)
    | Except.ok detected =>
      if 0 < detected.faces.length then
        match env.decodeRes with
        | Except.error e => ([], "Failed to decode image: " ++ e)
        | Except.ok dims =>
          let _newImg := processImageForFaces dims.1 dims.2 detected command
          let effs := [Effect.sendChatAction "upload_photo"]
          match env.encodeRes with
          | Except.error e => (effs, "Failed to encode image: " ++ e)
          | Except.ok _ =>
            match env.sendPhotoRes with
            | Except.ok _ =>
              (effs ++ [Effect.sendPhoto (captionPlain command)], "")
            | Except.error d =>
              (effs ++ [Effect.sendPhoto (captionPlain command)],
               "Failed to send image: " ++ d)
      else
        ([], "No face detected on this image.")
  else if command = DetectProducts then
    match env.detectProductRes with
    | Except.error _ => ([], "")
    | Except.ok detected =>
      if 0 < detected.objects.length then
        match env.decodeRes with
        | Except.error e => ([], "Failed to decode image: " ++ e)
        | Except.ok dims =>
          let rendered := processImageForProducts dims.1 dims.2 detected
          let caption :=
            captionWithBody command (String.intercalate "\n" rendered.2)
          let effs := [Effect.sendChatAction "upload_photo"]
          match env.encodeRes with
          | Except.error e => (effs, "Failed to encode image: " ++ e)
          | Except.ok _ =>
            match env.sendPhotoRes with
            | Except.ok _ => (effs ++ [Effect.sendPhoto caption], "")
            | Except.error d =>
              (effs ++ [Effect.sendPhoto caption],
               "Failed to send image: " ++ d)
      else
        ([], "No product detected on this image.")
  else if command = DetectNSFW then
    match env.detectNSFWRes with
    | Except.error e =>
      ([], "Failed to detect NSFW factors from image: " ++ e)
    | Except.ok detected =>
      let message :=
        captionWithBody command
          ("Normal: " ++ fmt2 (100 * detected.normal) ++ "%\n"
            ++ "Soft: " ++ fmt2 (100 * detected.soft) ++ "%\n"
            ++ "Adult: " ++ fmt2 (100 * detected.adult) ++ "%")
      match env.sendMessageRes with
      | Except.ok _ => ([Effect.sendMessage message], "")
      | Except.error d =>
        ([Effect.sendMessage message],
         "Failed to send nsfw factors: " ++ d)
  else if command = Tag then
    match env.generateTagsRes with
    | Except.error e => ([], "Failed to tag image: " ++ e)
    | Except.ok generated =>
      if 0 < generated.labels.length then
        let tags := (List.range generated.labels.length).map
          (fun i => generated.labels.getD i ""
            ++ " (" ++ generated.labelsKorean.getD i "" ++ ")")
        let message := captionWithBody command (String.intercalate "\n" tags)
        match env.sendMessageRes with
        | Except.ok _ => ([Effect.sendMessage message], "")
        | Except.error d =>
          ([Effect.sendMessage message], "Failed to send tags: " ++ d)
      else
        ([], "Could not tag given image.")
  else if command = AnalyzePoses then
    match env.analyzePoseRes with
    | Except.error e => ([], "Failed to detect faces: " ++ e)
    | Except.ok analyzed =>
      match env.decodeRes with
      | Except.error e => ([], "Failed to decode image: " ++ e)
      | Except.ok dims =>
        let _newImg := processImageForPoses dims.1 dims.2 analyzed
        let effs := [Effect.sendChatAction "upload_photo"]
        match env.encodeRes with
        | Except.error e => (effs, "Failed to encode image: " ++ e)
        | Except.ok _ =>
          match env.sendPhotoRes with
          | Except.ok _ =>
            (effs ++ [Effect.sendPhoto (captionPlain command)], "")
          | Except.error d =>
            (effs ++ [Effect.sendPhoto (captionPlain command)],
             "Failed to send image: " ++ d)
  else if command = ExtractTexts then
    match env.detectTextRes with
    | Except.error e => ([], "Failed to detect texts: " ++ e)
    | Except.ok detected =>
      let strs := detected.flatMap (fun r => r.recognizedWords)
      let message := captionWithBody command (String.intercalate ", " strs)
      match env.sendMessageRes with
      | Except.ok _ => ([Effect.sendMessage message], "")
      | Except.error d =>
        ([Effect.sendMessage message],
         "Failed to send extracted texts: " ++ d)
  else
    ([], "Command not supported: " ++ command)

/-- The dispatcher unit of work processImage, src/main.go lines 819-1012:
signal typing, fetch the image bytes (failure sets the errorMessage and
skips the switch), run the command switch, delete the menu message, and
finally send the errorMessage as a text reply when it is nonempty. -/
def processImage (env : ImageEnv) (command : VisionCommand) : List Effect :=
  let core : List Effect × String :=
    match env.readBytesRes with
    | Except.error e =>
      ([], "Failed to read file from " ++ env.fileURL ++ ": " ++ e)
    | Except.ok _ => processImageSwitch env command
  [Effect.sendChatAction "typing"] ++ core.1 ++ [Effect.deleteMessage]
    ++ (if core.2 = "" then [] else [Effect.sendMessage core.2])

/-- A pixel buffer: pixel coordinates to an encoded color value. -/
abbrev Buf := Nat → Nat → Nat

/-- A heap of allocated pixel buffers; the address of a buffer is its index
and allocation appends. -/
abbrev BufHeap := List Buf

/-- One pixel store naming the buffer it writes to. -/
structure PixWrite where
  addr : Nat
  px : Nat
  py : Nat
  val : Nat

/-- A functional update of one pixel of a buffer. -/
def writePix (b : Buf) (x y v : Nat) : Buf :=
  fun i j => if i = x ∧ j = y then v else b i j

/-- Apply one pixel store to the heap. -/
def applyWrite (heap : BufHeap) (w : PixWrite) : BufHeap :=
  match heap[w.addr]? with
  | some b => heap.set w.addr (writePix b w.px w.py w.val)
  | Option.none => heap

/-- Apply pixel stores in order. -/
def applyWrites (heap : BufHeap) (ws : List PixWrite) : BufHeap :=
  ws.foldl applyWrite heap

/-- A rasterizer turns one drawing primitive into the pixel positions and
values it touches; the concrete draw2d and gift rasterization is an
external collaborator, so it is kept abstract and universally
quantified. -/
def Rasterizer := DrawOp → List (Nat × Nat × Nat)

/-- The buffer discipline shared by the three rendering routines
(src/main.go lines 443-446, 555-557, 606-609): allocate a fresh zeroed
RGBA canvas with image.NewRGBA, copy the source image into it with
draw.Draw, and attach the graphic context to the new canvas so every
subsequent draw call, whatever pixels it rasterizes to, writes only to the
new canvas (the MaskFaces gift.DrawAt call also draws onto the new canvas,
lines 525-541). Returns the heap after all writes and the address of the
new canvas. -/
def renderToNewBuf (rast : Rasterizer) (heap : BufHeap) (srcAddr : Nat)
    (imgDx imgDy : Nat) (ops : List DrawOp) : BufHeap × Nat :=
  let newAddr := heap.length
  let src : Buf := heap[srcAddr]?.getD (fun _ _ => 0)
  let heap1 := heap ++ [(fun _ _ => 0 : Buf)]
  let copyWrites := (List.range imgDx).flatMap
    (fun x => (List.range imgDy).map
      (fun y => PixWrite.mk newAddr x y (src x y)))
  let opWrites := ops.flatMap
    (fun op => (rast op).map
      (fun t => PixWrite.mk newAddr t.1 t.2.1 t.2.2))
  (applyWrites heap1 (copyWrites ++ opWrites), newAddr)

/-- Startup registry construction as far as the command registry is
concerned: init at src/main.go lines 173-216 performs no validation of
allCmds whatsoever (it loads the config, constructs the API clients and
parses the font), and the registry itself is a package-level map literal,
so startup never fails on account of the token table; duplicate token
VALUES in a Go map literal are legal. Construction is therefore the
identity and can never return an error. -/
def buildRegistry (entries : List (VisionCommand × String)) :
    Except String (List (VisionCommand × String)) :=
  Except.ok entries

/-- A 32-character file handle used as a concrete input in witnesses. -/
def fid32 : String := "0123456789abcdefghijklmnopqrstuv"

/-- A concrete processImage environment in which every external call
succeeds and every remote result is empty, used as a witness input. -/
def envEmptyAll : ImageEnv :=
  { fileURL := "https://example.invalid/file.jpg",
    readBytesRes := Except.ok (),
    detectFaceRes := Except.ok ⟨640, 480, []⟩,
    detectProductRes := Except.ok ⟨640, 480, []⟩,
    detectNSFWRes := Except.ok ⟨1, 0, 0⟩,
    generateTagsRes := Except.ok ⟨[], []⟩,
    analyzePoseRes := Except.ok [],
    detectTextRes := Except.ok [],
    decodeRes := Except.ok (640, 480),
    encodeRes := Except.ok (),
    sendPhotoRes := Except.ok (),
    sendMessageRes := Except.ok () }

/-- goSplit never returns the empty list. -/
theorem goSplit_ne_nil (sep : Char) (l : List Char) : goSplit sep l ≠ [] := by
  cases l with
  | nil => simp [goSplit]
  | cons c rest =>
    simp only [goSplit]
    rcases h : goSplit sep rest with _ | ⟨s, ss⟩
    · simp
    · by_cases hc : c = sep <;> simp [hc]

/-- Splitting a list that does not contain the separator yields the list
itself as the single chunk. -/
theorem goSplit_of_not_mem (sep : Char) (l : List Char) (h : sep ∉ l) :
    goSplit sep l = [l] := by
  induction l with
  | nil => rfl
  | cons c rest ih =>
    have hc : c ≠ sep := fun hh => h (hh ▸ List.mem_cons_self c rest)
    have hr : sep ∉ rest := fun hh => h (List.mem_cons_of_mem c hh)
    simp only [goSplit, ih hr]
    simp [fun hh : c = sep => hc hh]

/-- Splitting at an explicit separator occurrence: when the prefix holds no
separator, the prefix becomes the first chunk. -/
theorem goSplit_append (sep : Char) (a b : List Char) (h : sep ∉ a) :
    goSplit sep (a ++ sep :: b) = a :: goSplit sep b := by
  induction a with
  | nil =>
    simp only [List.nil_append, goSplit]
    rcases hb : goSplit sep b with _ | ⟨s, ss⟩
    · exact absurd hb (goSplit_ne_nil sep b)
    · simp
  | cons c a ih =>
    have hc : c ≠ sep := fun hh => h (hh ▸ List.mem_cons_self c a)
    have ha : sep ∉ a := fun hh => h (List.mem_cons_of_mem c hh)
    simp only [List.cons_append, goSplit, List.append_eq]
    rw [ih ha]
    simp [fun hh : c = sep => hc hh]

/-- Unfolds String append to the underlying character lists. -/
theorem strData_append (a b : String) : (a ++ b).data = a.data ++ b.data := by
  cases a; cases b; rfl

/-- Round trip of the payload wire format: a payload built as
token ++ "/" ++ key parses back to the token and the key, provided neither
holds a slash. -/
theorem parseCallbackData_append (tok key : String)
    (htok : '/' ∉ tok.data) (hkey : '/' ∉ key.data) :
    parseCallbackData (tok ++ "/" ++ key) = some (tok, key) := by
  have hdata : (tok ++ "/" ++ key).data = tok.data ++ '/' :: key.data := by
    rw [strData_append, strData_append]
    have hslash : ("/" : String).data = ['/'] := rfl
    rw [hslash, List.append_assoc]
    rfl
  have hsplit : goSplit '/' (tok ++ "/" ++ key).data
      = [tok.data, key.data] := by
    rw [hdata, goSplit_append '/' tok.data key.data htok,
        goSplit_of_not_mem '/' key.data hkey]
  simp only [parseCallbackData, strSplit, hsplit]
  rfl

/-- A pixel store aimed at a different address leaves a buffer alone. -/
theorem applyWrite_get_ne (heap : BufHeap) (w : PixWrite) (a : Nat)
    (h : w.addr ≠ a) : (applyWrite heap w)[a]? = heap[a]? := by
  unfold applyWrite
  cases hb : heap[w.addr]? with
  | none => rfl
  | some b => exact List.getElem?_set_ne h

/-- Pixel stores all aimed at different addresses leave a buffer alone. -/
theorem applyWrites_get_ne (ws : List PixWrite) (heap : BufHeap) (a : Nat)
    (h : ∀ w ∈ ws, w.addr ≠ a) :
    (applyWrites heap ws)[a]? = heap[a]? := by
  induction ws generalizing heap with
  | nil => rfl
  | cons w ws ih =>
    have h1 : w.addr ≠ a := h w (List.mem_cons_self w ws)
    have h2 : ∀ w2 ∈ ws, w2.addr ≠ a :=
      fun w2 hw2 => h w2 (List.mem_cons_of_mem w hw2)
    calc (applyWrites heap (w :: ws))[a]?
        = (applyWrites (applyWrite heap w) ws)[a]? := rfl
      _ = (applyWrite heap w)[a]? := ih (applyWrite heap w) h2
      _ = heap[a]? := applyWrite_get_ne heap w a h1

/-- Core of the non-mutation argument: whatever the rasterizer does and
whatever drawing primitives a detection result produced, rendering writes
only the freshly allocated canvas, so the source buffer is untouched, and
the returned address is new. -/
theorem renderToNewBuf_preserves (rast : Rasterizer) (heap : BufHeap)
    (srcAddr imgDx imgDy : Nat) (ops : List DrawOp)
    (hsrc : srcAddr < heap.length) :
    (renderToNewBuf rast heap srcAddr imgDx imgDy ops).1[srcAddr]?
        = heap[srcAddr]?
    ∧ (renderToNewBuf rast heap srcAddr imgDx imgDy ops).2 ≠ srcAddr
    ∧ heap[(renderToNewBuf rast heap srcAddr imgDx imgDy ops).2]?
        = Option.none := by
  have hne : heap.length ≠ srcAddr := Nat.ne_of_gt hsrc
  unfold renderToNewBuf
  refine ⟨?_, hne, List.getElem?_eq_none (Nat.le_refl _)⟩
  have hall : ∀ w ∈ ((List.range imgDx).flatMap
      (fun x => (List.range imgDy).map
        (fun y => PixWrite.mk heap.length x y
          ((heap[srcAddr]?.getD (fun _ _ => 0)) x y))))
      ++ (ops.flatMap (fun op => (rast op).map
        (fun t => PixWrite.mk heap.length t.1 t.2.1 t.2.2))),
      w.addr ≠ srcAddr := by
    intro w hw
    rcases List.mem_append.mp hw with hw1 | hw2
    · rcases List.mem_flatMap.mp hw1 with ⟨x, _, hx⟩
      rcases List.mem_map.mp hx with ⟨y, _, rfl⟩
      exact hne
    · rcases List.mem_flatMap.mp hw2 with ⟨op, _, hop⟩
      rcases List.mem_map.mp hop with ⟨t, _, rfl⟩
      exact hne
  rw [show (applyWrites (heap ++ [(fun _ _ => 0 : Buf)]) _, heap.length).1
        = applyWrites (heap ++ [(fun _ _ => 0 : Buf)]) _ from rfl]
  rw [applyWrites_get_ne _ _ _ hall]
  exact List.getElem?_append_left hsrc

/-- The head of an append with a nonempty left part is the head of the left
part. -/
theorem head_append_left {α : Type} (a b : List α) (h : a ≠ []) :
    (a ++ b).head? = a.head? := by
  cases a with
  | nil => exact absurd rfl h
  | cons x xs => rfl

/-- C3: every registry token decodes back to its command (the tokens of the
fixed table are pairwise distinct), and the startup construction embedded
by buildRegistry is the identity, hence in particular succeeds on the
registry. The claimed fail-fast duplicate check does not exist in the
code; see the counterexample. -/
theorem registry_roundtrip_and_construction :
    (∀ p ∈ allCmds, visionCommandForCommand p.2 = p.1)
    ∧ (allCmds.map Prod.snd).Nodup
    ∧ (∀ entries, buildRegistry entries = Except.ok entries) :=
  ⟨by decide, by decide, fun _ => rfl⟩

/-- C3 witness: the round trip at the concrete token of DetectFaces. -/
theorem registry_roundtrip_witness :
    visionCommandForCommand "detect_faces" = DetectFaces :=
  registry_roundtrip_and_construction.1 (DetectFaces, "detect_faces")
    (by decide)

/-- C3 counterexample: a table in which the two distinct commands
DetectFaces and Tag share the token tag is still constructed successfully,
so registry construction does not fail when two commands share a token. -/
theorem registry_duplicate_token_accepted :
    buildRegistry [(DetectFaces, "tag"), (Tag, "tag")]
      = Except.ok [(DetectFaces, "tag"), (Tag, "tag")]
    ∧ DetectFaces ≠ Tag := by
  exact ⟨rfl, by decide⟩

/-- C1 counterexample: the callback payload generated for an image is NOT
the command token concatenated with the key without a delimiter: the
generated DetectFaces button payload holds a slash between token and key
and differs from the delimiterless concatenation. -/
theorem payload_has_slash_delimiter :
    ((genImageInlineKeyboards [] fid32).map
        (fun r => r.2.1.getD 0 ("", "")))
      = some ("Detect Faces", "detect_faces/" ++ fid32)
    ∧ ("detect_faces/" ++ fid32) ≠ "detect_faces" ++ fid32 := by
  exact ⟨by decide, by decide⟩

/-- C1 (amended): every non-cancel button generated for an image carries
the payload token ++ "/" ++ key (a slash delimiter); parsing such a
payload recovers the token and the key (the registry tokens hold no slash;
the hypothesis exempts slashes from the key), decoding the token yields
the command; the only other generated payload is the cancel sentinel. -/
theorem payload_wire_format (store : FileStore) (fileID key : String)
    (store2 : FileStore) (buttons : List (String × String))
    (cancelData : String)
    (hgen : genImageInlineKeyboards store fileID
      = some (store2, buttons, cancelData))
    (hshort : shortenFileID fileID = some key)
    (hkey : '/' ∉ key.data) :
    (∀ p ∈ buttons, ∃ tok : String, (p.1, tok) ∈ allCmds
       ∧ p.2 = tok ++ "/" ++ key
       ∧ parseCallbackData p.2 = some (tok, key)
       ∧ visionCommandForCommand tok = p.1)
    ∧ cancelData = commandCancel := by
  simp only [genImageInlineKeyboards, storeFileID, hshort,
    Option.map_some', Option.some.injEq, Prod.mk.injEq] at hgen
  obtain ⟨rfl, rfl, rfl⟩ := hgen
  refine ⟨?_, rfl⟩
  intro p hp
  rcases List.mem_map.mp hp with ⟨⟨c, tok⟩, hq, rfl⟩
  refine ⟨tok, hq, rfl, ?_, ?_⟩
  · have htok : '/' ∉ tok.data := by
      simp only [allCmds, List.mem_cons, List.not_mem_nil, or_false,
        Prod.mk.injEq] at hq
      rcases hq with ⟨-, rfl⟩ | ⟨-, rfl⟩ | ⟨-, rfl⟩ | ⟨-, rfl⟩ | ⟨-, rfl⟩
        | ⟨-, rfl⟩ | ⟨-, rfl⟩ <;> decide
    exact parseCallbackData_append tok key htok hkey
  · show visionCommandForCommand tok = c
    simp only [allCmds, List.mem_cons, List.not_mem_nil, or_false,
      Prod.mk.injEq] at hq
    rcases hq with ⟨rfl, rfl⟩ | ⟨rfl, rfl⟩ | ⟨rfl, rfl⟩ | ⟨rfl, rfl⟩
      | ⟨rfl, rfl⟩ | ⟨rfl, rfl⟩ | ⟨rfl, rfl⟩ <;> decide

/-- C1 witness: the amended wire-format theorem applied at a concrete
32-character handle and the DetectFaces button. -/
theorem payload_wire_format_witness :
    ∃ tok : String, ("Detect Faces", tok) ∈ allCmds
      ∧ "detect_faces/" ++ fid32 = tok ++ "/" ++ fid32
      ∧ parseCallbackData ("detect_faces/" ++ fid32) = some (tok, fid32)
      ∧ visionCommandForCommand tok = "Detect Faces" :=
  (payload_wire_format [] fid32 fid32 [(fid32, fid32)]
      (allCmds.map (fun p => (p.1, p.2 ++ "/" ++ fid32))) commandCancel
      (by decide) (by decide) (by decide)).1
    ("Detect Faces", "detect_faces/" ++ fid32) (by decide)

/-- C2 counterexample: on a callback whose well-formed payload names a key
absent from the store, the user-facing reply is exactly the
transport-fetch-failure constant Failed to get file from the server., so
the stale-reference message is NOT a distinct failed-to-get-file text. -/
theorem stale_key_message_not_distinct :
    (processCallbackQuery
        ⟨"detect_faces/" ++ fid32, messageActionImage, [],
         true, true, true⟩).message = messageFailedToGetFile
    ∧ (processCallbackQuery
        ⟨"detect_faces/" ++ fid32, messageActionImage, [],
         true, true, true⟩).spawned = Option.none
    ∧ messageFailedToGetFile = "Failed to get file from the server." := by
  exact ⟨by decide, by decide, rfl⟩

/-- C2 (amended): when the shortened key of a well-formed non-cancel
payload is not in the File Reference Store, the dispatcher replies with
messageFailedToGetFile (the same constant the transport-fetch failure
uses; only the operator log distinguishes the two cases) and spawns no
remote analysis work. -/
theorem stale_key_no_remote_call (env : CBEnv)
    (hc : env.data ≠ commandCancel)
    (hlen : 2 ≤ (strSplit env.data '/').length)
    (hmiss : lookupFileID env.store ((strSplit env.data '/').getD 1 "")
      = Option.none) :
    (processCallbackQuery env).message = messageFailedToGetFile
    ∧ (processCallbackQuery env).spawned = Option.none := by
  rw [List.getD_eq_getElem?_getD] at hmiss
  simp [processCallbackQuery, hc, hlen, hmiss]

/-- C2 witness: the stale-key theorem applied at a concrete environment. -/
theorem stale_key_no_remote_call_witness :
    (processCallbackQuery
        ⟨"tag/" ++ fid32, messageActionImage, [],
         true, true, true⟩).message = messageFailedToGetFile
    ∧ (processCallbackQuery
        ⟨"tag/" ++ fid32, messageActionImage, [],
         true, true, true⟩).spawned = Option.none :=
  stale_key_no_remote_call
    ⟨"tag/" ++ fid32, messageActionImage, [], true, true, true⟩
    (by decide) (by decide) (by decide)

/-- C6: a callback whose payload is the cancel sentinel yields the exact
reply Canceled., spawns no processImage work (no remote analysis call),
and when the callback is answered the menu message is edited to exactly
that text. -/
theorem cancel_callback (env : CBEnv) (hc : env.data = commandCancel) :
    (processCallbackQuery env).message = messageCanceled
    ∧ (processCallbackQuery env).spawned = Option.none
    ∧ (env.answerOk = true →
        (processCallbackQuery env).edited = some messageCanceled)
    ∧ messageCanceled = "Canceled." := by
  refine ⟨by simp [processCallbackQuery, hc], by simp [processCallbackQuery, hc], ?_, rfl⟩
  intro ha
  simp [processCallbackQuery, hc, ha]

/-- C6 witness: the cancel theorem at a concrete environment. -/
theorem cancel_callback_witness :
    (processCallbackQuery
        ⟨commandCancel, messageActionImage, [], true, true, true⟩).message
      = messageCanceled
    ∧ (processCallbackQuery
        ⟨commandCancel, messageActionImage, [], true, true, true⟩).spawned
      = Option.none :=
  ⟨(cancel_callback ⟨commandCancel, messageActionImage, [], true, true, true⟩
      rfl).1,
   (cancel_callback ⟨commandCancel, messageActionImage, [], true, true, true⟩
      rfl).2.1⟩

/-- C4: storing a file handle and looking up the key it produced returns
that handle, and looking up a key no entry carries reports not-found (the
lookup is a total function returning an Option, so it cannot throw or
panic; the dispatcher answers the miss with a user-facing message, see the
stale-key theorems). -/
theorem store_roundtrip :
    (∀ (store : FileStore) (h k : String) (store2 : FileStore),
        storeFileID store h = some (k, store2) →
        lookupFileID store2 k = some h)
    ∧ (∀ (store : FileStore) (k : String),
        (∀ p ∈ store, p.1 ≠ k) → lookupFileID store k = Option.none) := by
  constructor
  · intro store h k store2 hput
    simp only [storeFileID] at hput
    rcases hshort : shortenFileID h with - | key
    · rw [hshort] at hput
      simp at hput
    · rw [hshort, Option.map_some'] at hput
      have h2 := Option.some.inj hput
      obtain ⟨rfl, rfl⟩ : key = k ∧ (key, h) :: store = store2 :=
        ⟨congrArg Prod.fst h2, congrArg Prod.snd h2⟩
      simp [lookupFileID, List.find?]
  · intro store k hmiss
    have hfind : store.find? (fun p => p.1 == k) = Option.none :=
      List.find?_eq_none.mpr
        (fun p hp => by simpa using hmiss p hp)
    simp [lookupFileID, hfind]

/-- C4 witness: the round trip at a concrete 32-character handle, and a
miss on the empty store. -/
theorem store_roundtrip_witness :
    lookupFileID [(fid32, fid32)] fid32 = some fid32
    ∧ lookupFileID [] fid32 = Option.none :=
  ⟨store_roundtrip.1 [] fid32 fid32 [(fid32, fid32)] (by decide),
   store_roundtrip.2 [] fid32 (by simp)⟩

/-- C9: the put operation derives the key by taking the first 32 characters
of the handle, and it is defined (the Go slice does not panic) exactly
when the transport-issued handle is at least 32 characters long. -/
theorem store_put_defined (store : FileStore) (fileID : String) :
    ((storeFileID store fileID).isSome = true ↔ 32 ≤ fileID.length)
    ∧ (∀ (k : String) (store2 : FileStore),
        storeFileID store fileID = some (k, store2) →
        k = fileID.take 32) := by
  constructor
  · by_cases h : 32 ≤ fileID.length <;>
      simp [storeFileID, shortenFileID, h]
  · intro k store2 hput
    by_cases h : 32 ≤ fileID.length
    · simp [storeFileID, shortenFileID, h] at hput
      exact hput.1.symm
    · simp [storeFileID, shortenFileID, h] at hput

/-- C9 witness: the put operation succeeds on a concrete 32-character
handle and its key is the 32-character prefix. -/
theorem store_put_defined_witness :
    (storeFileID [] fid32).isSome = true ∧ fid32 = fid32.take 32 :=
  ⟨(store_put_defined [] fid32).1.mpr (by decide),
   (store_put_defined [] fid32).2 fid32 [(fid32, fid32)] (by decide)⟩

/-- C5: a face-detect request whose remote call succeeds with zero faces
issues exactly one outbound text send, whose text is the no-face message,
and zero photo sends; and the no-face message differs from every
remote-error message (which always begins with the failed-to-detect
preamble), so the empty result is a distinct outcome. -/
theorem no_face_detected (env : ImageEnv) (detected : FaceResult)
    (hr : env.readBytesRes = Except.ok ())
    (hd : env.detectFaceRes = Except.ok detected)
    (hf : detected.faces = []) :
    processImage env DetectFaces =
      [Effect.sendChatAction "typing", Effect.deleteMessage,
       Effect.sendMessage "No face detected on this image."]
    ∧ ((processImage env DetectFaces).filter Effect.isMessage).length = 1
    ∧ ((processImage env DetectFaces).filter Effect.isPhoto).length = 0
    ∧ (∀ e : String,
        "No face detected on this image." ≠ "Failed to detect faces: " ++ e)
    := by
  have hmain : processImage env DetectFaces =
      [Effect.sendChatAction "typing", Effect.deleteMessage,
       Effect.sendMessage "No face detected on this image."] := by
    simp [processImage, processImageSwitch, hr, hd, hf]
  refine ⟨hmain, by rw [hmain]; rfl, by rw [hmain]; rfl, ?_⟩
  intro e heq
  have hdd := congrArg String.data heq
  rw [strData_append] at hdd
  have hh := congrArg List.head? hdd
  rw [head_append_left _ _ (by decide)] at hh
  exact absurd hh (by decide)

/-- C5 witness: the no-face theorem at a concrete all-empty successful
environment. -/
theorem no_face_detected_witness :
    processImage envEmptyAll DetectFaces =
      [Effect.sendChatAction "typing", Effect.deleteMessage,
       Effect.sendMessage "No face detected on this image."] :=
  (no_face_detected envEmptyAll ⟨640, 480, []⟩ rfl rfl rfl).1

/-- C10: an empty pose result is not a failure: the photo reply is still
produced (the renderer emits no overlay at all on zero poses); an empty
text result is not a failure: the one text reply carries the empty join as
its body; by contrast the face, product and tag commands turn empty
results into a nothing-detected failure reply. -/
theorem empty_pose_text_not_failure (env : ImageEnv) (dims : Nat × Nat)
    (detectedF : FaceResult) (detectedP : ProductResult)
    (generated : TagResult) (blocks : List TextBlock)
    (hr : env.readBytesRes = Except.ok ())
    (hp : env.analyzePoseRes = Except.ok [])
    (hdec : env.decodeRes = Except.ok dims)
    (henc : env.encodeRes = Except.ok ())
    (hsp : env.sendPhotoRes = Except.ok ())
    (ht : env.detectTextRes = Except.ok blocks)
    (hw : blocks.flatMap (fun r => r.recognizedWords) = [])
    (hsm : env.sendMessageRes = Except.ok ())
    (hdf : env.detectFaceRes = Except.ok detectedF)
    (hfe : detectedF.faces = [])
    (hdp : env.detectProductRes = Except.ok detectedP)
    (hpe : detectedP.objects = [])
    (hgt : env.generateTagsRes = Except.ok generated)
    (hte : generated.labels = []) :
    processImage env AnalyzePoses =
      [Effect.sendChatAction "typing", Effect.sendChatAction "upload_photo",
       Effect.sendPhoto (captionPlain AnalyzePoses), Effect.deleteMessage]
    ∧ (processImageForPoses dims.1 dims.2 []).ops = []
    ∧ processImage env ExtractTexts =
      [Effect.sendChatAction "typing",
       Effect.sendMessage (captionWithBody ExtractTexts ""),
       Effect.deleteMessage]
    ∧ processImage env DetectFaces =
      [Effect.sendChatAction "typing", Effect.deleteMessage,
       Effect.sendMessage "No face detected on this image."]
    ∧ processImage env DetectProducts =
      [Effect.sendChatAction "typing", Effect.deleteMessage,
       Effect.sendMessage "No product detected on this image."]
    ∧ processImage env Tag =
      [Effect.sendChatAction "typing", Effect.deleteMessage,
       Effect.sendMessage "Could not tag given image."] := by
  refine ⟨?_, rfl, ?_, ?_, ?_, ?_⟩
  · simp [processImage, processImageSwitch, hr, hp, hdec, henc, hsp,
      DetectFaces, MaskFaces, DetectProducts, DetectNSFW, Tag, AnalyzePoses, ExtractTexts]
  · simp [processImage, processImageSwitch, hr, ht, hw, hsm,
      captionWithBody, String.intercalate, DetectFaces, MaskFaces,
      DetectProducts, DetectNSFW, Tag, AnalyzePoses, ExtractTexts]
  · simp [processImage, processImageSwitch, hr, hdf, hfe,
      DetectFaces, MaskFaces, DetectProducts, DetectNSFW, Tag, AnalyzePoses, ExtractTexts]
  · simp [processImage, processImageSwitch, hr, hdp, hpe,
      DetectFaces, MaskFaces, DetectProducts, DetectNSFW, Tag, AnalyzePoses, ExtractTexts]
  · simp [processImage, processImageSwitch, hr, hgt, hte,
      DetectFaces, MaskFaces, DetectProducts, DetectNSFW, Tag, AnalyzePoses, ExtractTexts]

/-- C10 witness: the empty-result theorem at a concrete all-empty
successful environment. -/
theorem empty_pose_text_not_failure_witness :
    processImage envEmptyAll AnalyzePoses =
      [Effect.sendChatAction "typing", Effect.sendChatAction "upload_photo",
       Effect.sendPhoto (captionPlain AnalyzePoses), Effect.deleteMessage]
    ∧ processImage envEmptyAll ExtractTexts =
      [Effect.sendChatAction "typing",
       Effect.sendMessage (captionWithBody ExtractTexts ""),
       Effect.deleteMessage] :=
  ⟨(empty_pose_text_not_failure envEmptyAll (640, 480) ⟨640, 480, []⟩
      ⟨640, 480, []⟩ ⟨[], []⟩ [] rfl rfl rfl rfl rfl rfl rfl rfl rfl rfl
      rfl rfl rfl rfl).1,
   (empty_pose_text_not_failure envEmptyAll (640, 480) ⟨640, 480, []⟩
      ⟨640, 480, []⟩ ⟨[], []⟩ [] rfl rfl rfl rfl rfl rfl rfl rfl rfl rfl
      rfl rfl rfl rfl).2.2.1⟩

/-- C7: the drawing primitives of the face renderer are identical whatever
the locally decoded image dimensions are (only the canvas and the cosmetic
font size depend on them), and for every indexed face the stroked
rectangle and every nose landmark circle are placed by multiplying the
normalized coordinates with the width and height declared in the
detection response itself. -/
theorem face_geometry_uses_response_dims (d1x d1y d2x d2y : Nat)
    (detected : FaceResult) (command : VisionCommand) :
    (processImageForFaces d1x d1y detected command).ops
      = (processImageForFaces d2x d2y detected command).ops
    ∧ (∀ p ∈ detected.faces.enum,
        DrawOp.strokeRect ((detected.width : ℚ) * p.2.x)
            ((detected.height : ℚ) * p.2.y)
            ((detected.width : ℚ) * (p.2.x + p.2.w))
            ((detected.height : ℚ) * (p.2.y + p.2.h))
            (colorForIndex p.1)
          ∈ (processImageForFaces d1x d1y detected DetectFaces).ops
        ∧ (∀ q ∈ p.2.facialPoints.nose,
            DrawOp.point ((detected.width : ℚ) * q.x)
                ((detected.height : ℚ) * q.y) CircleRadius
                (colorForIndex p.1)
              ∈ (processImageForFaces d1x d1y detected DetectFaces).ops)
        ∧ DrawOp.pixelate (goInt ((detected.width : ℚ) * p.2.x))
            (goInt ((detected.height : ℚ) * p.2.y))
            (goInt ((detected.width : ℚ) * (p.2.x + p.2.w)))
            (goInt ((detected.height : ℚ) * (p.2.y + p.2.h)))
            (goInt ((detected.width : ℚ) * p.2.w / 8))
          ∈ (processImageForFaces d1x d1y detected MaskFaces).ops) := by
  refine ⟨rfl, ?_⟩
  intro p hp
  refine ⟨?_, ?_, ?_⟩
  · exact List.mem_flatMap.mpr ⟨p, hp, by simp [faceOps, DetectFaces]⟩
  · intro q hq
    refine List.mem_flatMap.mpr ⟨p, hp, ?_⟩
    simp only [faceOps, if_pos rfl]
    exact List.mem_append_left _ (List.mem_append_left _
      (List.mem_append_left _ (List.mem_append_right _
        (List.mem_map_of_mem _ hq))))
  · refine List.mem_flatMap.mpr ⟨p, hp, ?_⟩
    simp [faceOps, DetectFaces, MaskFaces]

/-- C7 witness: the response-dimension theorem at a concrete response with
one face and one nose landmark, under two different local image sizes. -/
theorem face_geometry_witness :
    (processImageForFaces 10 20
        ⟨100, 200, [⟨1/2, 1/4, 1/8, 1/8, ⟨[⟨1/2, 1/2⟩], [], [], []⟩⟩]⟩
        DetectFaces).ops
      = (processImageForFaces 999 1
        ⟨100, 200, [⟨1/2, 1/4, 1/8, 1/8, ⟨[⟨1/2, 1/2⟩], [], [], []⟩⟩]⟩
        DetectFaces).ops
    ∧ DrawOp.strokeRect ((100 : ℚ) * (1/2)) ((200 : ℚ) * (1/4))
        ((100 : ℚ) * (1/2 + 1/8)) ((200 : ℚ) * (1/4 + 1/8))
        (colorForIndex 0)
      ∈ (processImageForFaces 10 20
          ⟨100, 200, [⟨1/2, 1/4, 1/8, 1/8, ⟨[⟨1/2, 1/2⟩], [], [], []⟩⟩]⟩
          DetectFaces).ops :=
  ⟨(face_geometry_uses_response_dims 10 20 999 1
      ⟨100, 200, [⟨1/2, 1/4, 1/8, 1/8, ⟨[⟨1/2, 1/2⟩], [], [], []⟩⟩]⟩
      DetectFaces).1,
   ((face_geometry_uses_response_dims 10 20 999 1
      ⟨100, 200, [⟨1/2, 1/4, 1/8, 1/8, ⟨[⟨1/2, 1/2⟩], [], [], []⟩⟩]⟩
      DetectFaces).2
      (0, ⟨1/2, 1/4, 1/8, 1/8, ⟨[⟨1/2, 1/2⟩], [], [], []⟩⟩)
      (by simp [List.enum, List.enumFrom])).1⟩

/-- C8: rendering never mutates the input image. Whatever pixels the
(abstract) rasterizer touches for the drawing primitives of the face,
product or pose renderer, every pixel store targets the freshly allocated
canvas, so the buffer at the source address is unchanged and the returned
canvas address is a new one. -/
theorem render_nonmutating (rast : Rasterizer) (heap : BufHeap)
    (srcAddr imgDx imgDy : Nat) (detectedF : FaceResult)
    (detectedP : ProductResult) (analyzed : PoseResult)
    (command : VisionCommand) (hsrc : srcAddr < heap.length) :
    ((renderToNewBuf rast heap srcAddr imgDx imgDy
        (processImageForFaces imgDx imgDy detectedF command).ops).1[srcAddr]?
          = heap[srcAddr]?
      ∧ (renderToNewBuf rast heap srcAddr imgDx imgDy
          (processImageForFaces imgDx imgDy detectedF command).ops).2
          ≠ srcAddr
      ∧ heap[(renderToNewBuf rast heap srcAddr imgDx imgDy
          (processImageForFaces imgDx imgDy detectedF command).ops).2]?
          = Option.none)
    ∧ ((renderToNewBuf rast heap srcAddr imgDx imgDy
        (processImageForProducts imgDx imgDy detectedP).1.ops).1[srcAddr]?
          = heap[srcAddr]?
      ∧ (renderToNewBuf rast heap srcAddr imgDx imgDy
          (processImageForProducts imgDx imgDy detectedP).1.ops).2
          ≠ srcAddr)
    ∧ ((renderToNewBuf rast heap srcAddr imgDx imgDy
        (processImageForPoses imgDx imgDy analyzed).ops).1[srcAddr]?
          = heap[srcAddr]?
      ∧ (renderToNewBuf rast heap srcAddr imgDx imgDy
          (processImageForPoses imgDx imgDy analyzed).ops).2
          ≠ srcAddr) :=
  ⟨renderToNewBuf_preserves rast heap srcAddr imgDx imgDy _ hsrc,
   ⟨(renderToNewBuf_preserves rast heap srcAddr imgDx imgDy _ hsrc).1,
    (renderToNewBuf_preserves rast heap srcAddr imgDx imgDy _ hsrc).2.1⟩,
   ⟨(renderToNewBuf_preserves rast heap srcAddr imgDx imgDy _ hsrc).1,
    (renderToNewBuf_preserves rast heap srcAddr imgDx imgDy _ hsrc).2.1⟩⟩

/-- C8 witness: the non-mutation theorem at a concrete one-buffer heap,
empty rasterizer and empty face response. -/
theorem render_nonmutating_witness :
    (renderToNewBuf (fun _ => []) [(fun _ _ => 0 : Buf)] 0 4 4
        (processImageForFaces 4 4 ⟨4, 4, []⟩ DetectFaces).ops).2 ≠ 0 :=
  (render_nonmutating (fun _ => []) [(fun _ _ => 0 : Buf)] 0 4 4
      ⟨4, 4, []⟩ ⟨4, 4, []⟩ [] DetectFaces (by decide)).1.2.1

end KakaoVision
